import Mathlib

/-!
# nodejs-demo-app: a verification development of `index.js`

The script resolves a listen port from the environment, registers one route on
an Express application and starts listening.  The script itself is embedded
statement by statement (`PORT`, `rootHandler`, `listenCallback`, `main`).  The
Express/Node runtime it calls into is an external dependency whose code is not
part of the repository; the small runtime model below is written from the
specification of the service and is marked as such.
-/

namespace NodejsDemoApp

/-! ## JavaScript values reaching `PORT` -/

/-- The JavaScript values that can occur in `process.env.PORT || 3000`. -/
inductive JsValue where
  | undefined
  | str (s : String)
  | num (n : Nat)
  deriving DecidableEq, Repr

/-- The result of JavaScript's `typeof` on those values. -/
inductive JsType where
  | undefinedT
  | string
  | number
  deriving DecidableEq, Repr

namespace JsValue

/-- JavaScript `typeof v`. -/
def typeOf : JsValue → JsType
  | undefined => JsType.undefinedT
  | str _ => JsType.string
  | num _ => JsType.number

/-- JavaScript truthiness: `undefined`, the empty string and `0` are falsy. -/
def truthy : JsValue → Bool
  | undefined => false
  | str s => decide (s ≠ "")
  | num n => decide (n ≠ 0)

/-- JavaScript `a || b`: the left operand when it is truthy, else the right one. -/
def or (a b : JsValue) : JsValue :=
  if a.truthy then a else b

/-- String conversion as performed by a template literal. -/
def toText : JsValue → String
  | undefined => "undefined"
  | str s => s
  | num n => toString n

end JsValue

/-- Value of a run of decimal digits, most significant first, on top of `acc`. -/
def digitsValue : List Char → Nat → Option Nat
  | [], acc => some acc
  | c :: cs, acc =>
    if c.isDigit then digitsValue cs (10 * acc + (c.toNat - 48)) else none

/-- Numeric reading of a port value: a number denotes itself, a non-empty
string of decimal digits denotes the natural number it spells. -/
def JsValue.denotes : JsValue → Option Nat
  | JsValue.undefined => none
  | JsValue.num n => some n
  | JsValue.str s => if s = "" then none else digitsValue s.data 0

/-! ## The process environment -/

/-- The process environment: a variable is unset (`none`) or bound to a string. -/
abbrev Env := String → Option String

/-- Reads `process.env.<name>`: `undefined` when unset, else the string. -/
def processEnv (env : Env) (name : String) : JsValue :=
  match env name with
  | none => JsValue.undefined
  | some s => JsValue.str s

/-- Line 3: `const PORT = process.env.PORT || 3000;`. -/
def PORT (env : Env) : JsValue :=
  (processEnv env "PORT").or (JsValue.num 3000)

/-! ## Requests, responses and module state -/

/-- Request methods. -/
inductive Method where
  | GET | HEAD | POST | PUT | DELETE | PATCH | OPTIONS
  deriving DecidableEq, Repr

/-- An incoming request as seen by a handler. -/
structure Request where
  method : Method
  path : String
  query : String
  headers : List (String × String)
  body : String
  deriving DecidableEq, Repr

/-- The observable part of a response. -/
structure Response where
  statusCode : Nat
  body : String
  deriving DecidableEq, Repr

/-- The module-level bindings of `index.js` that outlive startup. -/
structure Globals where
  PORT : JsValue
  deriving DecidableEq, Repr

/-- A route handler: it may read the request, write the response and touch
the module state. -/
abbrev Handler := Request → Response → Globals → Globals × Response

/-- A registered route: a (method, path) pair with its handler. -/
structure Route where
  method : Method
  path : String
  handler : Handler

/-! ## Runtime model (Express / Node) -/

/-- Things the process does that are visible from outside, in order. -/
inductive Event where
  | bind (port : JsValue)
  | listening
  | write (text : String)
  | uncaught (port : JsValue)
  deriving DecidableEq, Repr

/-- The operating system's answer to a bind request for a given port value. -/
structure OS where
  canBind : JsValue → Bool

/-- State of the running process. -/
structure Runtime where
  routes : List Route
  errorListeners : Nat
  listening : Bool
  crashed : Bool
  trace : List Event

/-- Modelled from the spec: the response object handed to a handler by the
framework (missing: Express/Node response construction).  Its status is 200
until a handler changes it and its body is empty. -/
def Response.fresh : Response :=
  { statusCode := 200, body := "" }

/-- Modelled from the spec: `res.send(body)` (missing: Express `res.send`).
The given string becomes the response body; the status is left as it is. -/
def Response.send (res : Response) (body : String) : Response :=
  { res with body := body }

/-- Modelled from the spec: the framework's answer when no route matches
(missing: Express default handler), status 404 and no body of the program. -/
def Response.notFound : Response :=
  { statusCode := 404, body := "" }

/-- Modelled from the spec: `express()` (missing: Express application
construction).  A new application has no routes and is not listening. -/
def express : Runtime :=
  { routes := [], errorListeners := 0, listening := false, crashed := false, trace := [] }

/-- Modelled from the spec: `app.get(path, handler)` (missing: Express router).
Appends a GET route. -/
def appGet (path : String) (handler : Handler) (rt : Runtime) : Runtime :=
  { rt with routes := rt.routes ++ [{ method := Method.GET, path := path, handler := handler }] }

/-- Modelled from the spec: `console.log(text)` (missing: Node console).
Writes the text followed by a line feed to standard output. -/
def consoleLog (text : String) (rt : Runtime) : Runtime :=
  { rt with trace := rt.trace ++ [Event.write (text ++ "\n")] }

/-- Modelled from the spec: `app.listen(port, callback)` (missing: Express and
Node `listen`).  One bind attempt is made.  When it succeeds the process is
listening and then the callback runs; when it is refused and nobody listens
for the error, the error is uncaught and the process fails. -/
def appListen (os : OS) (port : JsValue) (callback : Runtime → Runtime)
    (rt : Runtime) : Runtime :=
  let rt1 := { rt with trace := rt.trace ++ [Event.bind port] }
  if os.canBind port then
    callback { rt1 with listening := true, trace := rt1.trace ++ [Event.listening] }
  else if rt1.errorListeners = 0 then
    { rt1 with crashed := true, trace := rt1.trace ++ [Event.uncaught port] }
  else
    rt1

/-- Modelled from the spec: route matching (missing: Express router).  A route
matches a request with the same method whose path equals the route path. -/
def Route.matches (r : Route) (req : Request) : Bool :=
  decide (r.method = req.method) && decide (r.path = req.path)

/-- Modelled from the spec: request dispatch (missing: Express router).  The
first matching route's handler runs on a fresh response; without a match the
framework default answers. -/
def dispatch (routes : List Route) (g : Globals) (req : Request) : Globals × Response :=
  match routes.find? (fun r => r.matches req) with
  | some r => r.handler req Response.fresh g
  | none => (g, Response.notFound)

/-- Serves a sequence of requests one after the other, threading the module state. -/
def serveAll (routes : List Route) (g : Globals) : List Request → Globals × List Response
  | [] => (g, [])
  | req :: rest =>
    let step := dispatch routes g req
    let tail := serveAll routes step.1 rest
    (tail.1, step.2 :: tail.2)

/-! ## The script `index.js` -/

/-- Line 6: the string literal passed to `res.send`. -/
def BODY : String := "🚀 Node.js Demo App running with CI/CD Pipeline!"

/-- Lines 5-7: `(req, res) => { res.send(BODY); }`. -/
def rootHandler : Handler :=
  fun _req res g => (g, res.send BODY)

/-- Line 10: the template literal logged by the listen callback. -/
def listenMessage (port : JsValue) : String :=
  "✅ Server running at http://localhost:" ++ port.toText

/-- Lines 9-11: the callback given to `app.listen`. -/
def listenCallback (port : JsValue) (rt : Runtime) : Runtime :=
  consoleLog (listenMessage port) rt

/-- The whole script, top to bottom: create the app, resolve `PORT`, register
the route, listen. -/
def main (env : Env) (os : OS) : Runtime × Globals :=
  let app := express
  let port := PORT env
  let app := appGet "/" rootHandler app
  let app := appListen os port (listenCallback port) app
  (app, { PORT := port })

/-! ## Observations on a run -/

/-- The port values handed to bind attempts, in order. -/
def bindAttempts : List Event → List JsValue
  | [] => []
  | Event.bind p :: es => p :: bindAttempts es
  | _ :: es => bindAttempts es

/-- Everything written to standard output, in order. -/
def stdoutText : List Event → String
  | [] => ""
  | Event.write t :: es => t ++ stdoutText es
  | _ :: es => stdoutText es

/-- Number of writes to standard output. -/
def writeCount : List Event → Nat
  | [] => 0
  | Event.write _ :: es => writeCount es + 1
  | _ :: es => writeCount es

/-- Number of lines in an output text: its line feeds. -/
def lineCount (out : String) : Nat :=
  out.data.count '\n'

/-- The (method, path) pairs of the registered routes. -/
def routeTable (rt : Runtime) : List (Method × String) :=
  rt.routes.map (fun r => (r.method, r.path))

/-- An environment in which only `PORT` is set, to `s`. -/
def envWithPort (s : String) : Env :=
  fun name => if name = "PORT" then some s else none

/-- An environment with no variable set. -/
def emptyEnv : Env :=
  fun _ => none

/-- An operating system that grants every bind. -/
def osAccept : OS := { canBind := fun _ => true }

/-- An operating system that refuses every bind. -/
def osRefuse : OS := { canBind := fun _ => false }

/-- A plain request with the given method and path. -/
def mkRequest (m : Method) (path : String) : Request :=
  { method := m, path := path, query := "", headers := [], body := "" }

/-- The text of the body that follows its first character. -/
def bodyRest : String := " Node.js Demo App running with CI/CD Pipeline!"

/-! ## Facts about the script shared by the results below -/

theorem main_globals (env : Env) (os : OS) : (main env os).2 = { PORT := PORT env } := rfl

theorem main_routes (env : Env) (os : OS) :
    (main env os).1.routes
      = [{ method := Method.GET, path := "/", handler := rootHandler }] := by
  unfold main appListen
  dsimp only
  split
  · rfl
  · split <;> rfl

theorem main_errorListeners (env : Env) (os : OS) : (main env os).1.errorListeners = 0 := by
  unfold main appListen
  dsimp only
  split
  · rfl
  · split <;> rfl

theorem main_trace_bound (env : Env) (os : OS) (h : os.canBind (PORT env) = true) :
    (main env os).1.trace
      = [Event.bind (PORT env), Event.listening,
          Event.write (listenMessage (PORT env) ++ "\n")] := by
  unfold main appListen
  dsimp only
  rw [if_pos h]
  rfl

theorem main_listening_bound (env : Env) (os : OS) (h : os.canBind (PORT env) = true) :
    (main env os).1.listening = true ∧ (main env os).1.crashed = false := by
  unfold main appListen
  dsimp only
  rw [if_pos h]
  exact ⟨rfl, rfl⟩

theorem main_trace_refused (env : Env) (os : OS) (h : os.canBind (PORT env) = false) :
    (main env os).1.trace = [Event.bind (PORT env), Event.uncaught (PORT env)] := by
  unfold main appListen
  dsimp only
  rw [if_neg (by simp [h])]
  rfl

theorem main_state_refused (env : Env) (os : OS) (h : os.canBind (PORT env) = false) :
    (main env os).1.listening = false ∧ (main env os).1.crashed = true := by
  unfold main appListen
  dsimp only
  rw [if_neg (by simp [h])]
  exact ⟨rfl, rfl⟩

theorem main_bindAttempts (env : Env) (os : OS) :
    bindAttempts (main env os).1.trace = [PORT env] := by
  cases h : os.canBind (PORT env)
  · rw [main_trace_refused env os h]; rfl
  · rw [main_trace_bound env os h]; rfl

theorem PORT_unset (env : Env) (h : env "PORT" = none) : PORT env = JsValue.num 3000 := by
  simp [PORT, processEnv, h, JsValue.or, JsValue.truthy]

theorem PORT_empty (env : Env) (h : env "PORT" = some "") : PORT env = JsValue.num 3000 := by
  simp [PORT, processEnv, h, JsValue.or, JsValue.truthy]

theorem PORT_set (env : Env) (s : String) (h : env "PORT" = some s) (hs : s ≠ "") :
    PORT env = JsValue.str s := by
  simp [PORT, processEnv, h, JsValue.or, JsValue.truthy, hs]

theorem dispatch_root (env : Env) (os : OS) (g : Globals) (req : Request)
    (hm : req.method = Method.GET) (hp : req.path = "/") :
    dispatch (main env os).1.routes g req = (g, { statusCode := 200, body := BODY }) := by
  rw [main_routes]
  simp [dispatch, Route.matches, hm, hp, rootHandler, Response.send, Response.fresh]

theorem find_other (env : Env) (os : OS) (req : Request) (hp : req.path ≠ "/") :
    (main env os).1.routes.find? (fun r => r.matches req) = none := by
  rw [main_routes]
  have hp2 : ¬ ("/" = req.path) := fun h => hp h.symm
  simp [Route.matches, hp2]

theorem dispatch_other (env : Env) (os : OS) (g : Globals) (req : Request)
    (hp : req.path ≠ "/") :
    dispatch (main env os).1.routes g req = (g, Response.notFound) := by
  unfold dispatch
  rw [find_other env os req hp]

theorem dispatch_globals (env : Env) (os : OS) (g : Globals) (req : Request) :
    (dispatch (main env os).1.routes g req).1 = g := by
  rw [main_routes]
  unfold dispatch
  cases h : List.find? (fun r => r.matches req)
      [({ method := Method.GET, path := "/", handler := rootHandler } : Route)] with
  | none => rfl
  | some r =>
    have hr := List.mem_of_find?_eq_some h
    simp at hr
    subst hr
    rfl

theorem serveAll_globals (env : Env) (os : OS) (reqs : List Request) (g : Globals) :
    (serveAll (main env os).1.routes g reqs).1 = g := by
  induction reqs generalizing g with
  | nil => rfl
  | cons req rest ih =>
    show (serveAll (main env os).1.routes (dispatch (main env os).1.routes g req).1 rest).1 = g
    rw [ih, dispatch_globals]

theorem serveAll_responses (env : Env) (os : OS) (reqs : List Request) (g : Globals) :
    (serveAll (main env os).1.routes g reqs).2
      = reqs.map (fun r => (dispatch (main env os).1.routes g r).2) := by
  induction reqs generalizing g with
  | nil => rfl
  | cons req rest ih =>
    show (dispatch (main env os).1.routes g req).2
        :: (serveAll (main env os).1.routes (dispatch (main env os).1.routes g req).1 rest).2
      = _
    rw [ih, dispatch_globals]
    rfl

/-- A string that denotes a number is not empty. -/
theorem ne_empty_of_denotes (s : String) (v : Nat)
    (h : (JsValue.str s).denotes = some v) : s ≠ "" := by
  intro hs
  simp [JsValue.denotes, hs] at h

theorem lineCount_listen (t : String) (h : '\n' ∉ t.data) :
    lineCount ("✅ Server running at http://localhost:" ++ t ++ "\n") = 1 := by
  unfold lineCount
  rw [String.data_append, String.data_append, List.count_append, List.count_append,
    List.count_eq_zero.mpr h]
  decide

/-! ## Results -/

/-- C1: every GET request for the path `/`, whatever its headers, query and
body and whatever the module state left by earlier requests, is answered with
status 200 and the fixed literal body; any two such requests get equal
responses. -/
theorem get_root_fixed_response (env : Env) (os : OS) (g : Globals) (req : Request)
    (hm : req.method = Method.GET) (hp : req.path = "/") :
    (dispatch (main env os).1.routes g req).2
        = { statusCode := 200, body := "🚀 Node.js Demo App running with CI/CD Pipeline!" }
      ∧ ∀ (env2 : Env) (os2 : OS) (g2 : Globals) (req2 : Request),
          req2.method = Method.GET → req2.path = "/" →
          (dispatch (main env2 os2).1.routes g2 req2).2
            = (dispatch (main env os).1.routes g req).2 := by
  refine ⟨?_, ?_⟩
  · rw [dispatch_root env os g req hm hp]; rfl
  · intro env2 os2 g2 req2 hm2 hp2
    rw [dispatch_root env os g req hm hp, dispatch_root env2 os2 g2 req2 hm2 hp2]

theorem get_root_fixed_response_witness :
    (dispatch (main (envWithPort "4000") osAccept).1.routes { PORT := JsValue.str "4000" }
        { method := Method.GET, path := "/", query := "a=1",
          headers := [("accept", "text/html"), ("x-trace", "7")],
          body := "ignored" }).2
      = { statusCode := 200, body := "🚀 Node.js Demo App running with CI/CD Pipeline!" } :=
  (get_root_fixed_response (envWithPort "4000") osAccept { PORT := JsValue.str "4000" }
    { method := Method.GET, path := "/", query := "a=1",
      headers := [("accept", "text/html"), ("x-trace", "7")],
      body := "ignored" } rfl rfl).1

/-- C2: when `PORT` is unset, the resolved port is the number 3000 and that is
the value handed to the single `app.listen` call. -/
theorem port_unset_is_3000 (env : Env) (os : OS) (h : env "PORT" = none) :
    PORT env = JsValue.num 3000
      ∧ (main env os).2.PORT = JsValue.num 3000
      ∧ bindAttempts (main env os).1.trace = [JsValue.num 3000] := by
  have hp := PORT_unset env h
  refine ⟨hp, ?_, ?_⟩
  · rw [main_globals, hp]
  · rw [main_bindAttempts, hp]

theorem port_unset_is_3000_witness :
    PORT emptyEnv = JsValue.num 3000
      ∧ (main emptyEnv osAccept).2.PORT = JsValue.num 3000
      ∧ bindAttempts (main emptyEnv osAccept).1.trace = [JsValue.num 3000] :=
  port_unset_is_3000 emptyEnv osAccept rfl

/-- C3: when `PORT` is set to a string that spells the port number `v`, the
value resolved at startup and handed to `app.listen` is that string, it denotes
`v`, it is not the default value 3000 of the script, and `GET /` is answered as
it is under the default port: status 200 with the fixed body. -/
theorem port_set_is_used (env : Env) (os : OS) (s : String) (v : Nat)
    (hs : env "PORT" = some s) (hv : (JsValue.str s).denotes = some v) :
    PORT env = JsValue.str s
      ∧ (PORT env).denotes = some v
      ∧ PORT env ≠ JsValue.num 3000
      ∧ bindAttempts (main env os).1.trace = [JsValue.str s]
      ∧ ∀ (g : Globals) (req : Request), req.method = Method.GET → req.path = "/" →
          (dispatch (main env os).1.routes g req).2
              = (dispatch (main emptyEnv os).1.routes g req).2
            ∧ (dispatch (main env os).1.routes g req).2
              = { statusCode := 200, body := BODY } := by
  have hp := PORT_set env s hs (ne_empty_of_denotes s v hv)
  refine ⟨hp, ?_, ?_, ?_, ?_⟩
  · rw [hp]; exact hv
  · rw [hp]; intro hne; cases hne
  · rw [main_bindAttempts, hp]
  · intro g req hm hpath
    rw [dispatch_root env os g req hm hpath, dispatch_root emptyEnv os g req hm hpath]
    exact ⟨rfl, rfl⟩

theorem port_set_is_used_witness :
    PORT (envWithPort "4000") = JsValue.str "4000"
      ∧ (PORT (envWithPort "4000")).denotes = some 4000
      ∧ PORT (envWithPort "4000") ≠ JsValue.num 3000
      ∧ bindAttempts (main (envWithPort "4000") osAccept).1.trace = [JsValue.str "4000"] :=
  have h := port_set_is_used (envWithPort "4000") osAccept "4000" 4000 (by decide) (by decide)
  ⟨h.1, h.2.1, h.2.2.1, h.2.2.2.1⟩

/-- C4, as stated, fails: with `PORT=4000` in the environment the value bound
to `PORT` and handed to `app.listen` is the string `"4000"`, whose type is
string and not number. -/
theorem port_type_counterexample :
    PORT (envWithPort "4000") = JsValue.str "4000"
      ∧ (PORT (envWithPort "4000")).typeOf = JsType.string
      ∧ ¬ ((PORT (envWithPort "4000")).typeOf = JsType.number)
      ∧ bindAttempts (main (envWithPort "4000") osAccept).1.trace = [JsValue.str "4000"] := by
  decide

/-- C4, amended: the value bound to `PORT` and handed to `app.listen` has
number type exactly when `PORT` is unset or empty, and then it is the number
3000; when `PORT` is set to a non-empty string the value has string type and is
that string itself, unconverted. -/
theorem port_type_by_case (env : Env) (os : OS) :
    ((PORT env).typeOf = JsType.number ↔ (env "PORT" = none ∨ env "PORT" = some ""))
      ∧ ((PORT env).typeOf = JsType.number ↔ PORT env = JsValue.num 3000)
      ∧ ((PORT env).typeOf = JsType.string ↔ ∃ s, s ≠ "" ∧ env "PORT" = some s)
      ∧ (∀ s : String, env "PORT" = some s → s ≠ "" →
          PORT env = JsValue.str s ∧ (PORT env).typeOf = JsType.string)
      ∧ ((PORT env).typeOf = JsType.number ∨ (PORT env).typeOf = JsType.string)
      ∧ (main env os).2.PORT = PORT env
      ∧ bindAttempts (main env os).1.trace = [PORT env] := by
  refine ⟨?_, ?_, ?_, ?_, ?_, rfl, main_bindAttempts env os⟩
  all_goals
    cases h : env "PORT" with
    | none => simp [PORT_unset env h, JsValue.typeOf]
    | some s =>
      by_cases hs : s = ""
      · subst hs; simp [PORT_empty env h, JsValue.typeOf]
      · simp [PORT_set env s h hs, JsValue.typeOf, hs]

/-- C5: the script registers exactly one route, (GET, `/`); a request whose
path is not `/` matches no registered handler and is answered by the framework
default, whose status is outside 200..299. -/
theorem only_root_is_routed (env : Env) (os : OS) (g : Globals) (req : Request)
    (hp : req.path ≠ "/") :
    routeTable (main env os).1 = [(Method.GET, "/")]
      ∧ (main env os).1.routes.find? (fun r => r.matches req) = none
      ∧ (dispatch (main env os).1.routes g req).2 = Response.notFound
      ∧ ¬ (200 ≤ (dispatch (main env os).1.routes g req).2.statusCode
            ∧ (dispatch (main env os).1.routes g req).2.statusCode ≤ 299) := by
  refine ⟨?_, find_other env os req hp, ?_, ?_⟩
  · unfold routeTable
    rw [main_routes]
    rfl
  · rw [dispatch_other env os g req hp]
  · rw [dispatch_other env os g req hp]
    show ¬ (200 ≤ 404 ∧ 404 ≤ 299)
    omega

theorem only_root_is_routed_witness :
    routeTable (main emptyEnv osAccept).1 = [(Method.GET, "/")]
      ∧ (dispatch (main emptyEnv osAccept).1.routes { PORT := JsValue.num 3000 }
          (mkRequest Method.GET "/nope")).2.statusCode = 404 :=
  have h := only_root_is_routed emptyEnv osAccept { PORT := JsValue.num 3000 }
    (mkRequest Method.GET "/nope") (by decide)
  ⟨h.1, by rw [h.2.2.1]; rfl⟩

/-- C6, as stated, fails: with `PORT` set to a string that holds a line feed
and a bind that succeeds, the text written to standard output is two lines,
not one. -/
theorem listen_output_counterexample :
    osAccept.canBind (PORT (envWithPort "1\n2")) = true
      ∧ (main (envWithPort "1\n2") osAccept).1.listening = true
      ∧ stdoutText (main (envWithPort "1\n2") osAccept).1.trace
          = "✅ Server running at http://localhost:1\n2\n"
      ∧ lineCount (stdoutText (main (envWithPort "1\n2") osAccept).1.trace) = 2
      ∧ ¬ (lineCount (stdoutText (main (envWithPort "1\n2") osAccept).1.trace) = 1) := by
  decide

/-- C6, amended: for every resolved port, when binding succeeds the script
makes exactly one write to standard output, after the socket is listening; the
text written is `✅ Server running at http://localhost:` followed by the textual
form of the port and a line feed.  It is exactly one line whenever the textual
form of the port holds no line feed, and it contains `http://localhost:3000`
when `PORT` is unset. -/
theorem listen_output_when_bound (env : Env) (os : OS)
    (h : os.canBind (PORT env) = true) :
    (main env os).1.trace
        = [Event.bind (PORT env), Event.listening,
            Event.write ("✅ Server running at http://localhost:" ++ (PORT env).toText ++ "\n")]
      ∧ (main env os).1.listening = true
      ∧ writeCount (main env os).1.trace = 1
      ∧ stdoutText (main env os).1.trace
          = "✅ " ++ ("Server running at http://localhost:" ++ (PORT env).toText) ++ "\n"
      ∧ ('\n' ∉ (PORT env).toText.data →
          lineCount (stdoutText (main env os).1.trace) = 1)
      ∧ (env "PORT" = none →
          stdoutText (main env os).1.trace = "✅ Server running at http://localhost:3000\n"
            ∧ "http://localhost:3000".data <:+: (stdoutText (main env os).1.trace).data) := by
  have ht := main_trace_bound env os h
  have hout : stdoutText (main env os).1.trace
      = "✅ Server running at http://localhost:" ++ (PORT env).toText ++ "\n" := by
    rw [ht]
    show listenMessage (PORT env) ++ "\n" ++ "" = _
    rw [String.append_empty]
    rfl
  refine ⟨ht, (main_listening_bound env os h).1, ?_, ?_, ?_, ?_⟩
  · rw [ht]; rfl
  · rw [hout, ← String.append_assoc "✅ "]
    rfl
  · intro hn
    rw [hout]
    exact lineCount_listen _ hn
  · intro hu
    rw [hout, PORT_unset env hu]
    refine ⟨by decide, ?_⟩
    exact ⟨"✅ Server running at ".data, "\n".data, by decide⟩

theorem listen_output_when_bound_witness :
    (main emptyEnv osAccept).1.trace
        = [Event.bind (PORT emptyEnv), Event.listening,
            Event.write ("✅ Server running at http://localhost:"
              ++ (PORT emptyEnv).toText ++ "\n")]
      ∧ writeCount (main emptyEnv osAccept).1.trace = 1
      ∧ lineCount (stdoutText (main emptyEnv osAccept).1.trace) = 1 :=
  have h := listen_output_when_bound emptyEnv osAccept (by decide)
  ⟨h.1, h.2.2.1, h.2.2.2.2.1 (by decide)⟩

/-- C7: when the bind is refused, startup fails with the error uncaught: the
script has installed no error listener, exactly one bind attempt was made, the
process is not listening and nothing was written to standard output. -/
theorem bind_failure_is_fatal (env : Env) (os : OS)
    (h : os.canBind (PORT env) = false) :
    (main env os).1.crashed = true
      ∧ (main env os).1.listening = false
      ∧ (main env os).1.errorListeners = 0
      ∧ (main env os).1.trace = [Event.bind (PORT env), Event.uncaught (PORT env)]
      ∧ bindAttempts (main env os).1.trace = [PORT env]
      ∧ writeCount (main env os).1.trace = 0
      ∧ stdoutText (main env os).1.trace = "" := by
  have ht := main_trace_refused env os h
  have hs := main_state_refused env os h
  refine ⟨hs.2, hs.1, main_errorListeners env os, ht, main_bindAttempts env os, ?_, ?_⟩
  · rw [ht]; rfl
  · rw [ht]; rfl

theorem bind_failure_is_fatal_witness :
    (main emptyEnv osRefuse).1.crashed = true
      ∧ (main emptyEnv osRefuse).1.trace
          = [Event.bind (JsValue.num 3000), Event.uncaught (JsValue.num 3000)]
      ∧ stdoutText (main emptyEnv osRefuse).1.trace = "" :=
  have h := bind_failure_is_fatal emptyEnv osRefuse (by decide)
  ⟨h.1, h.2.2.2.1, h.2.2.2.2.2.2⟩

/-- C8: serving any finite sequence of requests, in whatever order, leaves the
module state as it was at startup, so the listen port is still the port
resolved at startup; each request gets the response it would get when handled
alone, and each `GET /` request gets status 200 with the fixed body. -/
theorem requests_change_no_state (env : Env) (os : OS) (reqs : List Request) :
    (serveAll (main env os).1.routes (main env os).2 reqs).1 = (main env os).2
      ∧ (serveAll (main env os).1.routes (main env os).2 reqs).1.PORT = PORT env
      ∧ (serveAll (main env os).1.routes (main env os).2 reqs).2
          = reqs.map (fun r => (dispatch (main env os).1.routes (main env os).2 r).2)
      ∧ (∀ (i : Nat) (req : Request), reqs[i]? = some req →
          req.method = Method.GET → req.path = "/" →
          (serveAll (main env os).1.routes (main env os).2 reqs).2[i]?
            = some { statusCode := 200, body := BODY })
      ∧ ∀ reqs2 : List Request, reqs2.Perm reqs →
          (serveAll (main env os).1.routes (main env os).2 reqs2).1
            = (serveAll (main env os).1.routes (main env os).2 reqs).1 := by
  refine ⟨serveAll_globals env os reqs _, ?_, serveAll_responses env os reqs _, ?_, ?_⟩
  · rw [serveAll_globals]; rfl
  · intro i req hi hm hp
    rw [serveAll_responses, List.getElem?_map, hi]
    show some (dispatch (main env os).1.routes (main env os).2 req).2 = _
    rw [dispatch_root env os _ req hm hp]
  · intro reqs2 _
    rw [serveAll_globals, serveAll_globals]

/-- C9: the body of `GET /` begins with the single code point U+1F680 followed
directly by a space; its UTF-8 encoding is the bytes F0 9F 9A 80 followed by
the 46 ASCII bytes of ` Node.js Demo App running with CI/CD Pipeline!`, 50
bytes in all. -/
theorem body_utf8_bytes :
    BODY.data = Char.ofNat 0x1F680 :: bodyRest.data
      ∧ bodyRest = " Node.js Demo App running with CI/CD Pipeline!"
      ∧ BODY.toUTF8.data.toList.map UInt8.toNat
          = [0xF0, 0x9F, 0x9A, 0x80] ++ bodyRest.data.map Char.toNat
      ∧ (∀ c ∈ bodyRest.data, c.toNat < 128)
      ∧ bodyRest.data.length = 46
      ∧ BODY.toUTF8.size = 50
      ∧ (dispatch (main emptyEnv osAccept).1.routes { PORT := JsValue.num 3000 }
          (mkRequest Method.GET "/")).2.body = BODY := by
  decide

/-- C10: the default 3000 is used exactly when `PORT` is unset or empty; any
other `PORT` string, `"0"`, non-numeric and out-of-range ones included, is the
resolved port unchanged and is what `app.listen` receives. -/
theorem port_default_exactly_when_falsy (env : Env) (os : OS) :
    (PORT env = JsValue.num 3000 ↔ (env "PORT" = none ∨ env "PORT" = some ""))
      ∧ (∀ s : String, env "PORT" = some s → s ≠ "" → PORT env = JsValue.str s)
      ∧ bindAttempts (main env os).1.trace = [PORT env]
      ∧ PORT (envWithPort "0") = JsValue.str "0"
      ∧ PORT (envWithPort "abc") = JsValue.str "abc"
      ∧ PORT (envWithPort "70000") = JsValue.str "70000"
      ∧ bindAttempts (main (envWithPort "70000") os).1.trace = [JsValue.str "70000"] := by
  refine ⟨?_, fun s h hs => PORT_set env s h hs, main_bindAttempts env os,
    by decide, by decide, by decide, ?_⟩
  · cases h : env "PORT" with
    | none => simp [PORT_unset env h]
    | some s =>
      by_cases hs : s = ""
      · subst hs; simp [PORT_empty env h]
      · simp [PORT_set env s h hs, hs]
  · rw [main_bindAttempts]
    decide

end NodejsDemoApp
